import Mathlib

/-!
Verification of the ClaimGuard policy-analysis core (src/main.py).

This file is a shallow embedding of the pure computational core of the
repository: the feature extractor and risk scorer (RiskPredictor), the
field extractors and classifier (PolicyAnalyzer) and the claim simulator
(the /api/simulate-claim endpoint).  Python strings are modelled as
List Char, Python ints and floats as ℤ/ℚ (exact rational arithmetic; for
every value exercised by the theorems below the Python float computation
is exact, so no rounding gap arises), Python regular-expression searches
as executable scanners specialised to the concrete patterns of the source
(each scanner's doc comment names the pattern it implements; the scanners
reproduce the leftmost-match and ordered-alternation semantics of re).
Fallible code is modelled with Except.  All definitions are executable.
-/

/-- Python's whitespace class for str.strip, \s in regexes, etc. -/
def isSpacePy (c : Char) : Bool :=
  c = ' ' || c = '\t' || c = '\n' || c = '\r' || c = '\x0b' || c = '\x0c'

/-- A character of the regex class [:\s]. -/
def isColonSpace (c : Char) : Bool :=
  c = ':' || isSpacePy c

/-- A character of the regex class [-\s]. -/
def isDashSpace (c : Char) : Bool :=
  c = '-' || isSpacePy c

/-- Python str.lower (ASCII letters; the repository's keyword tables and
pattern alphabets are ASCII, on which Char.toLower agrees with Python). -/
def lowerL (s : List Char) : List Char :=
  s.map Char.toLower

/-- Numeric value of a list of decimal digits (int(...) on a digit string). -/
def digitsToNat (ds : List Char) : ℕ :=
  ds.foldl (fun n c => 10 * n + (c.toNat - 48)) 0

/-- Fuel-driven worker for pyCount; fuel bounds the scan length. -/
def pyCountAux (w : List Char) : ℕ → List Char → ℕ
  | _, [] => 0
  | 0, _ => 0
  | fuel + 1, c :: rest =>
    if w.isPrefixOf (c :: rest) then
      pyCountAux w fuel (rest.drop (w.length - 1)) + 1
    else
      pyCountAux w fuel rest

/-- Python str.count: number of non-overlapping occurrences of w, scanning
left to right (after a hit the scan resumes past the hit). -/
def pyCount (w s : List Char) : ℕ :=
  pyCountAux w s.length s

/-- Python substring membership (the `in` operator on str). -/
def containsSub (w : List Char) : List Char → Bool
  | [] => w.isPrefixOf []
  | c :: rest => w.isPrefixOf (c :: rest) || containsSub w rest

/-- Python int() applied to a rational: truncation toward zero. -/
def ratTrunc (q : ℚ) : ℤ :=
  if 0 ≤ q then ⌊q⌋ else ⌈q⌉

/-- Python round(x): nearest integer, ties to the even integer. -/
def pyRoundInt (q : ℚ) : ℤ :=
  let f := ⌊q⌋
  let r := q - (f : ℚ)
  if r < 1 / 2 then f
  else if 1 / 2 < r then f + 1
  else if f % 2 = 0 then f else f + 1

/-- Python round(x, 1): round to one decimal digit, ties to even. -/
def pyRound1 (q : ℚ) : ℚ :=
  (pyRoundInt (q * 10) : ℚ) / 10

/-- Leftmost-match regex search driver: try the anchored matcher at every
position from the left, first success wins (re.search semantics). -/
def searchO {α : Type} (m : List Char → Option α) : List Char → Option α
  | [] => m []
  | c :: rest => (m (c :: rest)).orElse fun _ => searchO m rest

/-- Fuel-driven worker for findAll: on a hit, resume after the matched span
(re.findall semantics); on a miss advance one position. -/
def findAllAux {α : Type} (m : List Char → Option (α × List Char)) :
    ℕ → List Char → List α
  | 0, _ => []
  | _ + 1, [] => []
  | fuel + 1, c :: rest =>
    match m (c :: rest) with
    | some (a, rest2) => a :: findAllAux m fuel rest2
    | none => findAllAux m fuel rest

/-- re.findall for a matcher that always consumes at least one character. -/
def findAll {α : Type} (m : List Char → Option (α × List Char))
    (s : List Char) : List α :=
  findAllAux m s.length s

/-- The error raised inside the /api/simulate-claim handler and caught by
its try/except: dividing by a zero claim amount when computing
coverage_percentage.  No other failure exists in the handler's arithmetic. -/
inductive SimError where
  | zeroDivision
deriving DecidableEq

/-- The intermediate amounts of the simulate_claim handler
(src/main.py lines 1361-1380), before the round() calls of the response. -/
structure ClaimCore where
  deductible_amount : ℚ
  co_pay_amount : ℚ
  insurance_pays : ℚ
  out_of_pocket : ℚ
deriving DecidableEq

/-- simulate_claim's financial arithmetic: deductible first (capped at the
remaining amount), then co-pay on the remainder, insurer pays the rest. -/
def claimCore (claim_amount co_pay_pct deductible : ℚ) : ClaimCore :=
  let remaining0 := claim_amount
  let deductible_amount := if 0 < deductible then min deductible remaining0 else 0
  let remaining1 := remaining0 - deductible_amount
  let co_pay_amount := if 0 < co_pay_pct then remaining1 * co_pay_pct / 100 else 0
  let remaining2 := remaining1 - co_pay_amount
  let insurance_pays := remaining2
  let out_of_pocket := claim_amount - insurance_pays
  ⟨deductible_amount, co_pay_amount, insurance_pays, out_of_pocket⟩

/-- The simulation object of the JSON response (src/main.py lines 1385-1394). -/
structure ClaimSimulation where
  claim_amount : ℚ
  insurance_pays : ℤ
  out_of_pocket : ℤ
  deductible_applied : ℚ
  copay_applied : ℤ
  coverage_percentage : ℚ
deriving DecidableEq

/-- The /api/simulate-claim handler's computation for a found policy whose
financial details give co_pay_pct and deductible.  The handler performs no
validation of claim_amount; its only failure is the ZeroDivisionError in
round((insurance_pays / claim_amount) * 100, 1) when claim_amount = 0,
which the surrounding try/except turns into an error response. -/
def simulate_claim (claim_amount co_pay_pct deductible : ℚ) :
    Except SimError ClaimSimulation :=
  let core := claimCore claim_amount co_pay_pct deductible
  if claim_amount = 0 then Except.error SimError.zeroDivision
  else Except.ok
    { claim_amount := claim_amount
      insurance_pays := pyRoundInt core.insurance_pays
      out_of_pocket := pyRoundInt core.out_of_pocket
      deductible_applied := core.deductible_amount
      copay_applied := pyRoundInt core.co_pay_amount
      coverage_percentage := pyRound1 (core.insurance_pays / claim_amount * 100) }

/-- Closed form of claimCore under the intended preconditions (shared by the
theorems about the simulation arithmetic). -/
theorem claimCore_eq (claim p d : ℚ) (hc : 0 < claim) (hp : 0 ≤ p) (hd : 0 ≤ d) :
    claimCore claim p d =
      ⟨min d claim, (claim - min d claim) * p / 100,
        claim - min d claim - (claim - min d claim) * p / 100,
        claim - (claim - min d claim - (claim - min d claim) * p / 100)⟩ := by
  have hd' : (if 0 < d then min d claim else 0) = min d claim := by
    split_ifs with h
    · rfl
    · have hd0 : d = 0 := le_antisymm (not_lt.mp h) hd
      simp [hd0, min_eq_left hc.le]
  have hp' : ∀ x : ℚ, (if 0 < p then x * p / 100 else 0) = x * p / 100 := by
    intro x
    split_ifs with h
    · rfl
    · have hp0 : p = 0 := le_antisymm (not_lt.mp h) hp
      simp [hp0]
  simp only [claimCore, hd', hp']

/-- C4: for claimAmount > 0, co-pay p ≥ 0 and deductible d ≥ 0, the applied
deductible is min(d, claimAmount), the co-pay is (claimAmount − d′)·p/100,
the insurer pays the remainder, outOfPocket = claimAmount − insurerPays and
coveragePercentage = round(insurerPays/claimAmount·100, 1); at
claimAmount = 500000, p = 10, d = 50000 the simulation returns
deductibleApplied = 50000, copayApplied = 45000, insurerPays = 405000,
outOfPocket = 95000, coveragePercentage = 81.0. -/
theorem simulate_claim_arithmetic (claim p d : ℚ)
    (hc : 0 < claim) (hp : 0 ≤ p) (hd : 0 ≤ d) :
    (claimCore claim p d).deductible_amount = min d claim ∧
    (claimCore claim p d).co_pay_amount = (claim - min d claim) * p / 100 ∧
    (claimCore claim p d).insurance_pays =
      claim - min d claim - (claim - min d claim) * p / 100 ∧
    (claimCore claim p d).out_of_pocket =
      claim - (claimCore claim p d).insurance_pays ∧
    simulate_claim claim p d = Except.ok
      { claim_amount := claim
        insurance_pays :=
          pyRoundInt (claim - min d claim - (claim - min d claim) * p / 100)
        out_of_pocket :=
          pyRoundInt (claim - (claim - min d claim - (claim - min d claim) * p / 100))
        deductible_applied := min d claim
        copay_applied := pyRoundInt ((claim - min d claim) * p / 100)
        coverage_percentage :=
          pyRound1 ((claim - min d claim - (claim - min d claim) * p / 100)
            / claim * 100) } ∧
    simulate_claim 500000 10 50000 = Except.ok
      { claim_amount := 500000
        insurance_pays := 405000
        out_of_pocket := 95000
        deductible_applied := 50000
        copay_applied := 45000
        coverage_percentage := 81 } := by
  have hcore := claimCore_eq claim p d hc hp hd
  refine ⟨by rw [hcore], by rw [hcore], by rw [hcore], by rw [hcore], ?_, ?_⟩
  · simp only [simulate_claim, hcore, if_neg hc.ne']
  · norm_num [simulate_claim, claimCore, pyRoundInt, pyRound1]

/-- Witness for simulate_claim_arithmetic at the spec's concrete example. -/
theorem simulate_claim_arithmetic_witness :
    simulate_claim 500000 10 50000 = Except.ok
      { claim_amount := 500000
        insurance_pays := 405000
        out_of_pocket := 95000
        deductible_applied := 50000
        copay_applied := 45000
        coverage_percentage := 81 } :=
  (simulate_claim_arithmetic 500000 10 50000 (by norm_num) (by norm_num)
    (by norm_num)).2.2.2.2.2

/-- C10: for claimAmount > 0, deductible ≥ 0 and co-pay in [0,100], the
pre-rounding amounts satisfy insurerPays + outOfPocket = claimAmount exactly
and 0 ≤ insurerPays ≤ claimAmount; with co-pay 0 and deductible 0 the insurer
pays the full claim amount and coveragePercentage = 100.0. -/
theorem simulate_claim_conservation (claim p d : ℚ)
    (hc : 0 < claim) (hp0 : 0 ≤ p) (hp1 : p ≤ 100) (hd : 0 ≤ d) :
    (claimCore claim p d).insurance_pays + (claimCore claim p d).out_of_pocket
      = claim ∧
    0 ≤ (claimCore claim p d).insurance_pays ∧
    (claimCore claim p d).insurance_pays ≤ claim ∧
    (p = 0 → d = 0 →
      (claimCore claim p d).insurance_pays = claim ∧
      simulate_claim claim p d = Except.ok
        { claim_amount := claim
          insurance_pays := pyRoundInt claim
          out_of_pocket := 0
          deductible_applied := 0
          copay_applied := 0
          coverage_percentage := 100 }) := by
  have hcore := claimCore_eq claim p d hc hp0 hd
  have hm0 : 0 ≤ min d claim := le_min hd hc.le
  have hmc : min d claim ≤ claim := min_le_right d claim
  have hrem : 0 ≤ claim - min d claim := by linarith
  refine ⟨by rw [hcore]; ring, ?_, ?_, ?_⟩
  · rw [hcore]
    have : claim - min d claim - (claim - min d claim) * p / 100
        = (claim - min d claim) * (100 - p) / 100 := by ring
    rw [this]
    exact div_nonneg (mul_nonneg hrem (by linarith)) (by norm_num)
  · rw [hcore]
    have hcp : 0 ≤ (claim - min d claim) * p / 100 := by positivity
    linarith
  · intro hp hd0
    subst hp hd0
    have hmin : min (0 : ℚ) claim = 0 := min_eq_left hc.le
    have hip : claim - min (0 : ℚ) claim - (claim - min (0 : ℚ) claim) * 0 / 100
        = claim := by rw [hmin]; ring
    refine ⟨by rw [hcore, hip], ?_⟩
    rw [simulate_claim.eq_def, if_neg hc.ne', hcore, hip]
    have hcov : claim / claim * 100 = (100 : ℚ) := by
      field_simp
    have hoop : claim - claim = (0 : ℚ) := by ring
    simp only [hoop, hmin, hcov]
    norm_num [pyRoundInt, pyRound1]

/-- Witness for simulate_claim_conservation at claim 1000, co-pay 0,
deductible 0. -/
theorem simulate_claim_conservation_witness :
    (claimCore 1000 0 0).insurance_pays + (claimCore 1000 0 0).out_of_pocket
      = 1000 ∧
    simulate_claim 1000 0 0 = Except.ok
      { claim_amount := 1000
        insurance_pays := pyRoundInt 1000
        out_of_pocket := 0
        deductible_applied := 0
        copay_applied := 0
        coverage_percentage := 100 } := by
  have h := simulate_claim_conservation 1000 0 0 (by norm_num) le_rfl
    (by norm_num) le_rfl
  exact ⟨h.1, (h.2.2.2 rfl rfl).2⟩

/-- C1 (amended): the simulate-claim handler performs no validation of the
claim amount.  For claimAmount = 0 the call fails — with the division error
from coverage_percentage, not a dedicated InvalidInput check — and for any
claimAmount < 0 the call succeeds and returns payout figures. -/
theorem simulate_claim_no_validation (p d : ℚ) :
    simulate_claim 0 p d = Except.error SimError.zeroDivision ∧
    ∀ claim : ℚ, claim < 0 → ∃ r, simulate_claim claim p d = Except.ok r := by
  constructor
  · rw [simulate_claim.eq_def, if_pos rfl]
  · intro claim hneg
    refine ⟨{ claim_amount := claim
              insurance_pays := pyRoundInt (claimCore claim p d).insurance_pays
              out_of_pocket := pyRoundInt (claimCore claim p d).out_of_pocket
              deductible_applied := (claimCore claim p d).deductible_amount
              copay_applied := pyRoundInt (claimCore claim p d).co_pay_amount
              coverage_percentage :=
                pyRound1 ((claimCore claim p d).insurance_pays / claim * 100) },
      ?_⟩
    simp only [simulate_claim, if_neg hneg.ne]

/-- Witness for simulate_claim_no_validation: at co-pay 10 and deductible
50000 the zero claim errors and the claim −5 succeeds. -/
theorem simulate_claim_no_validation_witness :
    simulate_claim 0 10 50000 = Except.error SimError.zeroDivision ∧
    ∃ r, simulate_claim (-5) 10 50000 = Except.ok r :=
  ⟨(simulate_claim_no_validation 10 50000).1,
    (simulate_claim_no_validation 10 50000).2 (-5) (by norm_num)⟩

/-- C1 (counterexample to the claim as stated): a strictly negative claim
amount is accepted and produces payout figures — here claimAmount −100000
with co-pay 10% and deductible 50000 yields a full simulation object (with
deductibleApplied = −100000 and outOfPocket = −100000), instead of failing
with an InvalidInput error. -/
theorem simulate_claim_negative_accepted :
    (-100000 : ℚ) ≤ 0 ∧
    simulate_claim (-100000) 10 50000 = Except.ok
      { claim_amount := -100000
        insurance_pays := 0
        out_of_pocket := -100000
        deductible_applied := -100000
        copay_applied := 0
        coverage_percentage := 0 } := by
  refine ⟨by norm_num, ?_⟩
  rw [simulate_claim.eq_def]
  norm_num [claimCore, pyRoundInt, pyRound1]

/-- Occurrence count of a keyword group: sum of str.count over the group's
synonyms (RiskPredictor.extract_features, src/main.py lines 317-319). -/
def groupCount (tl : List Char) (ws : List String) : ℕ :=
  (ws.map fun w => pyCount w.toList tl).sum

/-- Anchored matcher for the pattern (\d+)% : a maximal digit run followed
by a percent sign; yields the numeric value and the rest after the match. -/
def matchPercent (s : List Char) : Option (ℕ × List Char) :=
  let ds := s.takeWhile Char.isDigit
  if ds.isEmpty then none
  else
    match s.dropWhile Char.isDigit with
    | '%' :: rest => some (digitsToNat ds, rest)
    | _ => none

/-- Anchored matcher for the branch rs\.?\s*(\d+) of the monetary pattern. -/
def matchRsAmount (s : List Char) : Option (ℕ × List Char) :=
  if "rs".toList.isPrefixOf s then
    let r1 := s.drop 2
    let r2 := match r1 with
      | '.' :: t => t
      | _ => r1
    let r3 := r2.dropWhile isSpacePy
    let ds := r3.takeWhile Char.isDigit
    if ds.isEmpty then none else some (digitsToNat ds, r3.dropWhile Char.isDigit)
  else none

/-- Anchored matcher for the branch ₹\s*(\d+) of the monetary pattern. -/
def matchRupeeAmount (s : List Char) : Option (ℕ × List Char) :=
  match s with
  | '₹' :: t =>
    let r := t.dropWhile isSpacePy
    let ds := r.takeWhile Char.isDigit
    if ds.isEmpty then none else some (digitsToNat ds, r.dropWhile Char.isDigit)
  | _ => none

/-- The alternation rs\.?\s*(\d+)|₹\s*(\d+), first branch preferred. -/
def matchAmountEither (s : List Char) : Option (ℕ × List Char) :=
  (matchRsAmount s).orElse fun _ => matchRupeeAmount s

/-- Anchored matcher for (\d+)\s*(day|days) and its month/year analogues:
digits, whitespace, then the unit literal; the alternation prefers the
singular, so the match always ends after it (re.findall semantics). -/
def matchNumUnit (unit : String) (s : List Char) : Option (Unit × List Char) :=
  let ds := s.takeWhile Char.isDigit
  if ds.isEmpty then none
  else
    let r1 := (s.dropWhile Char.isDigit).dropWhile isSpacePy
    if unit.toList.isPrefixOf r1 then some ((), r1.drop unit.toList.length)
    else none

/-- Mean of a list of naturals as a rational (np.mean, 0 for an empty list). -/
def listMeanQ (l : List ℕ) : ℚ :=
  if l.isEmpty then 0 else (l.sum : ℚ) / (l.length : ℚ)

/-- The flat feature mapping of RiskPredictor.extract_features
(src/main.py lines 292-346): 15 keyword-group counts, the mean percentage
and mean monetary amount, the counts of day/month/year mentions, and the
normalized document length. -/
structure ExtractedFeatures where
  waiting_period : ℕ
  exclusion : ℕ
  co_pay : ℕ
  sub_limit : ℕ
  room_rent : ℕ
  pre_existing : ℕ
  claim_days : ℕ
  deductible : ℕ
  disease : ℕ
  surgery : ℕ
  hospital : ℕ
  percentage : ℕ
  money : ℕ
  time : ℕ
  limit : ℕ
  avg_percentage : ℚ
  avg_amount : ℚ
  has_days : ℕ
  has_months : ℕ
  has_years : ℕ
  length : ℚ

/-- RiskPredictor.extract_features: keyword-group counting over the
lowercased text, percentage/amount regexes, time-period regexes and the
length feature, exactly as in src/main.py lines 292-346. -/
def extract_features (text : List Char) : ExtractedFeatures :=
  let tl := lowerL text
  { waiting_period := groupCount tl ["waiting period", "waiting time", "cooling period"]
    exclusion := groupCount tl ["exclusion", "not covered", "excluded", "not payable"]
    co_pay := groupCount tl ["co-pay", "copay", "coinsurance", "payable by insured"]
    sub_limit := groupCount tl ["sub-limit", "sublimit", "cap of", "maximum limit"]
    room_rent := groupCount tl ["room rent", "room charges", "accommodation"]
    pre_existing := groupCount tl ["pre-existing", "preexisting", "existing condition"]
    claim_days := groupCount tl ["within 24 hours", "within 48 hours", "immediately"]
    deductible := groupCount tl ["deductible", "excess amount", "first pay"]
    disease := groupCount tl ["cancer", "diabetes", "heart", "kidney", "liver", "hiv"]
    surgery := groupCount tl ["surgery", "operation", "procedure", "treatment"]
    hospital := groupCount tl ["hospital", "medical", "healthcare", "clinic"]
    percentage := groupCount tl ["%", "percent", "percentage"]
    money := groupCount tl ["rupees", "rs", "inr", "lakh", "thousand"]
    time := groupCount tl ["day", "days", "month", "months", "year", "years"]
    limit := groupCount tl ["limit", "capped", "maximum", "upto"]
    avg_percentage := listMeanQ (findAll matchPercent tl)
    avg_amount := listMeanQ (findAll matchAmountEither tl)
    has_days := (findAll (matchNumUnit "day") tl).length
    has_months := (findAll (matchNumUnit "month") tl).length
    has_years := (findAll (matchNumUnit "year") tl).length
    length := min ((text.length : ℚ) / 1000) 10 }

/-- The clamp applied to each sub-score: min(max(int(x), 0), 100). -/
def clampScore (q : ℚ) : ℤ :=
  min (max (ratTrunc q) 0) 100

/-- The three predicted risk sub-scores of RiskPredictor.predict_risk. -/
structure RiskPrediction where
  coverage_risk : ℤ
  cost_risk : ℤ
  delay_risk : ℤ
deriving DecidableEq

/-- RiskPredictor.predict_risk (src/main.py lines 348-412): the additive
scoring model over the extracted features, the policy-type, age and
disease adjustments, and the final [0,100] clamp with int() truncation. -/
def predict_risk (text : List Char) (policy_type : String) (age : ℤ)
    (has_disease : Bool) : RiskPrediction :=
  let f := extract_features text
  let coverage_risk : ℚ := 20 + (f.waiting_period : ℚ) * 8 + (f.exclusion : ℚ) * 10
    + (f.pre_existing : ℚ) * 12 + (f.disease : ℚ) * 5 + (f.has_years : ℚ) * 5
  let coverage_risk :=
    if policy_type = "Health Insurance" then coverage_risk + 10
    else if policy_type = "Car Insurance" then coverage_risk - 10
    else if policy_type = "Life Insurance" then coverage_risk - 5
    else coverage_risk
  let cost_risk : ℚ := 15 + (f.co_pay : ℚ) * 12 + (f.sub_limit : ℚ) * 10
    + (f.room_rent : ℚ) * 8 + (f.percentage : ℚ) * 5 + (f.money : ℚ) * 3
    + (f.deductible : ℚ) * 10 + f.avg_percentage * 1.5
  let delay_risk : ℚ := 10 + (f.claim_days : ℚ) * 15 + (f.time : ℚ) * 4
    + (f.has_days : ℚ) * 8 + (f.has_months : ℚ) * 5
  let coverage_risk :=
    if age > 60 then coverage_risk + 15
    else if age > 45 then coverage_risk + 8
    else coverage_risk
  let delay_risk :=
    if age > 60 then delay_risk + 10
    else if age > 45 then delay_risk + 5
    else delay_risk
  let coverage_risk := if has_disease then coverage_risk + 20 else coverage_risk
  let cost_risk := if has_disease then cost_risk + 10 else cost_risk
  { coverage_risk := clampScore coverage_risk
    cost_risk := clampScore cost_risk
    delay_risk := clampScore delay_risk }

/-- The clamp is bounded below by 0. -/
theorem clampScore_nonneg (q : ℚ) : 0 ≤ clampScore q :=
  le_min (le_max_right _ _) (by norm_num)

/-- The clamp is bounded above by 100. -/
theorem clampScore_le (q : ℚ) : clampScore q ≤ 100 :=
  min_le_right _ _

/-- C2: predict_risk computes the three sub-scores exactly by the fixed
additive model — bases 20/15/10, the feature-weighted sums, the policy-type
adjustment (Health +10 / Car −10 / Life −5), the age adjustment
(age>60 → +15/+10, else age>45 → +8/+5) and the declared-disease adjustment
(+20 coverage, +10 cost) — each result being int()-truncated and clamped
to [0, 100]. -/
theorem predict_risk_formula (text : List Char) (pt : String) (age : ℤ)
    (dis : Bool) :
    predict_risk text pt age dis =
      { coverage_risk := clampScore
          (20 + ((extract_features text).waiting_period : ℚ) * 8
            + ((extract_features text).exclusion : ℚ) * 10
            + ((extract_features text).pre_existing : ℚ) * 12
            + ((extract_features text).disease : ℚ) * 5
            + ((extract_features text).has_years : ℚ) * 5
            + (if pt = "Health Insurance" then 10
               else if pt = "Car Insurance" then -10
               else if pt = "Life Insurance" then -5 else 0)
            + (if age > 60 then 15 else if age > 45 then 8 else 0)
            + (if dis then 20 else 0))
        cost_risk := clampScore
          (15 + ((extract_features text).co_pay : ℚ) * 12
            + ((extract_features text).sub_limit : ℚ) * 10
            + ((extract_features text).room_rent : ℚ) * 8
            + ((extract_features text).percentage : ℚ) * 5
            + ((extract_features text).money : ℚ) * 3
            + ((extract_features text).deductible : ℚ) * 10
            + (extract_features text).avg_percentage * 1.5
            + (if dis then 10 else 0))
        delay_risk := clampScore
          (10 + ((extract_features text).claim_days : ℚ) * 15
            + ((extract_features text).time : ℚ) * 4
            + ((extract_features text).has_days : ℚ) * 8
            + ((extract_features text).has_months : ℚ) * 5
            + (if age > 60 then 10 else if age > 45 then 5 else 0)) } ∧
    0 ≤ (predict_risk text pt age dis).coverage_risk ∧
    (predict_risk text pt age dis).coverage_risk ≤ 100 ∧
    0 ≤ (predict_risk text pt age dis).cost_risk ∧
    (predict_risk text pt age dis).cost_risk ≤ 100 ∧
    0 ≤ (predict_risk text pt age dis).delay_risk ∧
    (predict_risk text pt age dis).delay_risk ≤ 100 := by
  refine ⟨?_, ?_, ?_, ?_, ?_, ?_, ?_⟩
  · simp only [predict_risk, RiskPrediction.mk.injEq]
    refine ⟨?_, ?_, ?_⟩ <;> split_ifs <;> exact congrArg clampScore (by ring)
  all_goals
    simp only [predict_risk]
    first
      | exact clampScore_nonneg _
      | exact clampScore_le _

/-- The risk-score dictionary passed to calculate_risk_score (its keys may
be absent; .get supplies the default 50). -/
structure MLRisks where
  coverage_risk : Option ℤ
  cost_risk : Option ℤ
  delay_risk : Option ℤ

/-- The RiskScores aggregate produced by calculate_risk_score. -/
structure RiskScores where
  coverage_risk : ℤ
  cost_risk : ℤ
  delay_risk : ℤ
  overall_risk : ℚ

/-- PolicyAnalyzer.calculate_risk_score (src/main.py lines 962-978): the
ML-predicted sub-scores are passed through (default 50 when missing) and
overall_risk is their fixed weighted average rounded to one decimal.  The
age, disease, risk_factors and coverage parameters are accepted and unused,
as in the source. -/
def calculate_risk_score {α β : Type} (age : ℤ) (disease : Bool)
    (risk_factors : α) (coverage : β) (ml_risks : MLRisks) : RiskScores :=
  let coverage_risk := ml_risks.coverage_risk.getD 50
  let cost_risk := ml_risks.cost_risk.getD 50
  let delay_risk := ml_risks.delay_risk.getD 50
  let overall_risk : ℚ := (coverage_risk : ℚ) * 0.4 + (cost_risk : ℚ) * 0.35
    + (delay_risk : ℚ) * 0.25
  { coverage_risk := coverage_risk
    cost_risk := cost_risk
    delay_risk := delay_risk
    overall_risk := pyRound1 overall_risk }

/-- C3: in every RiskScores record produced by calculate_risk_score,
overall_risk equals round(0.4·coverage + 0.35·cost + 0.25·delay, 1) of that
same record's sub-scores — it is never set independently of them. -/
theorem calculate_risk_score_overall {α β : Type} (age : ℤ) (disease : Bool)
    (risk_factors : α) (coverage : β) (ml_risks : MLRisks) :
    (calculate_risk_score age disease risk_factors coverage ml_risks).overall_risk
      = pyRound1
        (((calculate_risk_score age disease risk_factors coverage ml_risks).coverage_risk : ℚ) * 0.4
          + ((calculate_risk_score age disease risk_factors coverage ml_risks).cost_risk : ℚ) * 0.35
          + ((calculate_risk_score age disease risk_factors coverage ml_risks).delay_risk : ℚ) * 0.25) :=
  rfl

/-- Literal matcher: consume the given word if it is a prefix. -/
def litP (w : String) (s : List Char) : Option (List Char) :=
  if w.toList.isPrefixOf s then some (s.drop w.toList.length) else none

/-- Consume the regex [:\s]* (maximal munch; the class is disjoint from the
digits that follow it in every pattern using it, so no backtracking arises). -/
def dropColonSpaces (s : List Char) : List Char :=
  s.dropWhile isColonSpace

/-- Consume the regex \s* (maximal munch). -/
def dropSpaces (s : List Char) : List Char :=
  s.dropWhile isSpacePy

/-- Anchored (\d+)% capture: maximal digit run followed by a percent sign. -/
def capDigitsPercent (s : List Char) : Option ℕ :=
  let ds := s.takeWhile Char.isDigit
  if ds.isEmpty then none
  else
    match s.dropWhile Char.isDigit with
    | '%' :: _ => some (digitsToNat ds)
    | _ => none

/-- The [-\s]? optional class followed by the word w and a continuation,
with the greedy-then-backtrack semantics of the regex ? quantifier. -/
def optDashSpaceThen (w : String) (k : List Char → Option ℕ)
    (s : List Char) : Option ℕ :=
  match s with
  | c :: rest =>
    if isDashSpace c then ((litP w rest).bind k).orElse fun _ => (litP w s).bind k
    else (litP w s).bind k
  | [] => (litP w s).bind k

/-- Pattern co[-\s]?pay[:\s]*(\d+)% of extract_co_pay_percentage. -/
def matchCoPayPat1 (s : List Char) : Option ℕ :=
  (litP "co" s).bind
    (optDashSpaceThen "pay" fun t => capDigitsPercent (dropColonSpaces t))

/-- Pattern copayment[:\s]*(\d+)%. -/
def matchCoPayPat2 (s : List Char) : Option ℕ :=
  (litP "copayment" s).bind fun t => capDigitsPercent (dropColonSpaces t)

/-- Pattern co[-\s]?insurance[:\s]*(\d+)%. -/
def matchCoPayPat3 (s : List Char) : Option ℕ :=
  (litP "co" s).bind
    (optDashSpaceThen "insurance" fun t => capDigitsPercent (dropColonSpaces t))

/-- Pattern payable by insured[:\s]*(\d+)%. -/
def matchCoPayPat4 (s : List Char) : Option ℕ :=
  (litP "payable by insured" s).bind fun t =>
    capDigitsPercent (dropColonSpaces t)

/-- Pattern (\d+)%\s*co[-\s]?pay. -/
def matchCoPayPat5 (s : List Char) : Option ℕ :=
  let ds := s.takeWhile Char.isDigit
  if ds.isEmpty then none
  else
    match s.dropWhile Char.isDigit with
    | '%' :: r =>
      (litP "co" (dropSpaces r)).bind
        (optDashSpaceThen "pay" fun _ => some (digitsToNat ds))
    | _ => none

/-- Pattern (\d+)%\s*copayment. -/
def matchCoPayPat6 (s : List Char) : Option ℕ :=
  let ds := s.takeWhile Char.isDigit
  if ds.isEmpty then none
  else
    match s.dropWhile Char.isDigit with
    | '%' :: r =>
      (litP "copayment" (dropSpaces r)).map fun _ => digitsToNat ds
    | _ => none

/-- Pattern (\d+)%\s*co-insurance (the hyphen is literal here). -/
def matchCoPayPat7 (s : List Char) : Option ℕ :=
  let ds := s.takeWhile Char.isDigit
  if ds.isEmpty then none
  else
    match s.dropWhile Char.isDigit with
    | '%' :: r =>
      (litP "co-insurance" (dropSpaces r)).map fun _ => digitsToNat ds
    | _ => none

/-- RiskPredictor.extract_co_pay_percentage (src/main.py lines 414-438):
the seven percentage-qualified patterns tried in order over the lowercased
text; if none matches, 10 when a generic co-pay mention appears, else 0. -/
def extract_co_pay_percentage (text : List Char) : ℕ :=
  let tl := lowerL text
  match
    (searchO matchCoPayPat1 tl).orElse fun _ =>
    (searchO matchCoPayPat2 tl).orElse fun _ =>
    (searchO matchCoPayPat3 tl).orElse fun _ =>
    (searchO matchCoPayPat4 tl).orElse fun _ =>
    (searchO matchCoPayPat5 tl).orElse fun _ =>
    (searchO matchCoPayPat6 tl).orElse fun _ =>
    searchO matchCoPayPat7 tl
  with
  | some n => n
  | none =>
    if containsSub "co-pay".toList tl || containsSub "copay".toList tl
        || containsSub "co-payment".toList tl then 10
    else 0

/-- C5 (amended): whenever none of the seven percentage-qualified co-pay
patterns matches and "co-pay" or "copay" occurs in the (lowercased) text,
the extractor returns exactly 10.  On "co-pay of 20%" it returns 10 — the
fallback, because no pattern admits a word between the co-pay term and the
percentage — while on "co-pay 20%" it returns 20. -/
theorem extract_co_pay_fallback :
    (∀ text : List Char,
      searchO matchCoPayPat1 (lowerL text) = none →
      searchO matchCoPayPat2 (lowerL text) = none →
      searchO matchCoPayPat3 (lowerL text) = none →
      searchO matchCoPayPat4 (lowerL text) = none →
      searchO matchCoPayPat5 (lowerL text) = none →
      searchO matchCoPayPat6 (lowerL text) = none →
      searchO matchCoPayPat7 (lowerL text) = none →
      (containsSub "co-pay".toList (lowerL text) = true ∨
        containsSub "copay".toList (lowerL text) = true) →
      extract_co_pay_percentage text = 10) ∧
    extract_co_pay_percentage "co-pay of 20%".toList = 10 ∧
    extract_co_pay_percentage "co-pay 20%".toList = 20 := by
  refine ⟨?_, by decide, by decide⟩
  intro text h1 h2 h3 h4 h5 h6 h7 hc
  simp only [extract_co_pay_percentage, h1, h2, h3, h4, h5, h6, h7,
    Option.orElse]
  rcases hc with h | h <;> simp at h <;> simp [h]

/-- Witness for extract_co_pay_fallback: a text mentioning co-pay with no
percentage anywhere. -/
theorem extract_co_pay_fallback_witness :
    extract_co_pay_percentage "copay applies".toList = 10 :=
  extract_co_pay_fallback.1 "copay applies".toList (by decide) (by decide)
    (by decide) (by decide) (by decide) (by decide) (by decide)
    (Or.inr (by decide))

/-- C5 (counterexample to the claim as stated): on "co-pay of 20%" the
extractor returns 10 (the generic fallback), not 20. -/
theorem extract_co_pay_of20 :
    extract_co_pay_percentage "co-pay of 20%".toList = 10 ∧
    extract_co_pay_percentage "co-pay of 20%".toList ≠ 20 := by decide

/-- The optional currency marker (?:rs\.?|₹)? followed by \s* .  The branch
choice is deterministic: if the consumed branch's continuation (a digit or
comma) fails, the skipped-branch continuation fails as well, since the
group class [\d,] contains neither r nor ₹ nor a space. -/
def afterCurrency (s : List Char) : List Char :=
  if "rs".toList.isPrefixOf s then
    let r := s.drop 2
    let r2 := match r with
      | '.' :: t => t
      | _ => r
    dropSpaces r2
  else
    match s with
    | '₹' :: t => dropSpaces t
    | _ => dropSpaces s

/-- The capture group ([\d,]+(?:\.\d{1,2})?): a maximal run of digits and
commas, optionally a dot with one or two digits (greedy).  Returns the
captured characters and the rest after the group. -/
def capAmountGroup (s : List Char) : Option (List Char × List Char) :=
  let p1 := s.takeWhile fun c => c.isDigit || c = ','
  if p1.isEmpty then none
  else
    let r1 := s.dropWhile fun c => c.isDigit || c = ','
    match r1 with
    | '.' :: t =>
      let ds := (t.takeWhile Char.isDigit).take 2
      if ds.isEmpty then some (p1, r1)
      else some (p1 ++ '.' :: ds, t.drop ds.length)
    | _ => some (p1, r1)

/-- The unit-suffix alternation (?:lakh|lac|crore|million|thousand), in the
source's alternation order. -/
def suffixLits : List String :=
  ["lakh", "lac", "crore", "million", "thousand"]

/-- re.search of the suffix alternation over a window: first position, and
at equal positions the alternation order, decides the winner. -/
def findSuffix : List Char → Option String
  | [] => none
  | c :: rest =>
    match suffixLits.find? (fun w => w.toList.isPrefixOf (c :: rest)) with
    | some w => some w
    | none => findSuffix rest

/-- The multiplier chain of extract_sum_insured (src/main.py lines 619-628):
membership tests on the matched suffix text, in source order. -/
def suffixMultiplier (w : String) : ℚ :=
  if containsSub "lakh".toList w.toList || containsSub "lac".toList w.toList
    then 100000
  else if containsSub "crore".toList w.toList then 10000000
  else if containsSub "million".toList w.toList then 1000000
  else if containsSub "thousand".toList w.toList then 1000
  else 1

/-- str.replace(",", "") on the captured amount. -/
def removeCommas (s : List Char) : List Char :=
  s.filter fun c => c ≠ ','

/-- Python float() on a captured decimal string (digits, optionally a dot
and one-two digits; exact, since such strings denote decimal rationals). -/
def parseDecQ (s : List Char) : ℚ :=
  let ip := s.takeWhile Char.isDigit
  match s.dropWhile Char.isDigit with
  | '.' :: t => (digitsToNat ip : ℚ) + (digitsToNat t : ℚ) / ((10 : ℚ) ^ t.length)
  | _ => (digitsToNat ip : ℚ)

/-- Decimal digits of the fractional part (in [0,1)) of a rational, most
significant first, stopping when the remainder is zero; fuel bounds the
expansion.  Used to model Python str() on the float results of
extract_sum_insured, all of which have short exact decimal expansions. -/
def pyFracDigits : ℕ → ℚ → List Char
  | 0, _ => []
  | fuel + 1, q =>
    let q10 := q * 10
    let d := ⌊q10⌋
    if q10 - (d : ℚ) = 0 then [Nat.digitChar d.toNat]
    else Nat.digitChar d.toNat :: pyFracDigits fuel (q10 - (d : ℚ))

/-- Python str() on a float value, for values with an exact short decimal
expansion (sign, integer part, dot, fractional digits — at least one, so an
integral value prints as "N.0", as Python does below 1e16). -/
def pyFloatStr (q : ℚ) : String :=
  let sign := if q < 0 then "-" else ""
  let a := |q|
  sign ++ toString (⌊a⌋).toNat ++ "." ++ String.mk (pyFracDigits 17 (a - (⌊a⌋ : ℚ)))

/-- Continuation of sum-insured pattern 1 after its keyword alternation:
[:\s]*(?:rs\.?|₹)?\s*([\d,]+(?:\.\d{1,2})?)\s*(?:lakh|lac|crore|million|thousand)? —
the trailing optional suffix is anchored and, when present, consumed into
the match, moving the match end past it. -/
def siCont1 (r : List Char) : Option (List Char × List Char) :=
  match capAmountGroup (afterCurrency (dropColonSpaces r)) with
  | none => none
  | some (g, r3) =>
    let r4 := dropSpaces r3
    match suffixLits.find? (fun w => w.toList.isPrefixOf r4) with
    | some w => some (g, r4.drop w.toList.length)
    | none => some (g, r4)

/-- Continuation [:\s]*(?:rs\.?|₹)?\s*([\d,]+(?:\.\d{1,2})?) of the
sum-insured patterns without a trailing suffix group. -/
def siContPlain (r : List Char) : Option (List Char × List Char) :=
  capAmountGroup (afterCurrency (dropColonSpaces r))

/-- Sum-insured pattern 1:
(?:sum\s*insured|cover|coverage|sum\s*assured)[:\s]*(?:rs\.?|₹)?\s*
([\d,]+(?:\.\d{1,2})?)\s*(?:lakh|lac|crore|million|thousand)? , with the
regex's ordered alternation-with-continuation semantics. -/
def siPattern1 (s : List Char) : Option (List Char × List Char) :=
  (((litP "sum" s).bind fun t => litP "insured" (dropSpaces t)).bind siCont1).orElse
    fun _ =>
  ((litP "cover" s).bind siCont1).orElse fun _ =>
  ((litP "coverage" s).bind siCont1).orElse fun _ =>
  ((litP "sum" s).bind fun t => litP "assured" (dropSpaces t)).bind siCont1

/-- Sum-insured pattern 2:
(?:policy\s*amount|cover\s*amount|benefit\s*amount)[:\s]*(?:rs\.?|₹)?\s*(…). -/
def siPattern2 (s : List Char) : Option (List Char × List Char) :=
  (((litP "policy" s).bind fun t => litP "amount" (dropSpaces t)).bind
    siContPlain).orElse fun _ =>
  (((litP "cover" s).bind fun t => litP "amount" (dropSpaces t)).bind
    siContPlain).orElse fun _ =>
  ((litP "benefit" s).bind fun t => litP "amount" (dropSpaces t)).bind siContPlain

/-- Continuation [:\s]*(?:of)?\s*(?:rs\.?|₹)?\s*(…) of pattern 3, with
backtracking over the optional "of". -/
def siCont3 (r : List Char) : Option (List Char × List Char) :=
  let r1 := dropColonSpaces r
  ((litP "of" r1).bind fun t =>
    capAmountGroup (afterCurrency (dropSpaces t))).orElse fun _ =>
  capAmountGroup (afterCurrency (dropSpaces r1))

/-- Sum-insured pattern 3:
(?:liability|maximum\s*benefit)[:\s]*(?:of)?\s*(?:rs\.?|₹)?\s*(…). -/
def siPattern3 (s : List Char) : Option (List Char × List Char) :=
  ((litP "liability" s).bind siCont3).orElse fun _ =>
  ((litP "maximum" s).bind fun t => litP "benefit" (dropSpaces t)).bind siCont3

/-- Sum-insured pattern 4: up\s*to\s*(?:rs\.?|₹)?\s*(…). -/
def siPattern4 (s : List Char) : Option (List Char × List Char) :=
  (litP "up" s).bind fun t =>
    (litP "to" (dropSpaces t)).bind fun t2 =>
      capAmountGroup (afterCurrency (dropSpaces t2))

/-- Sum-insured pattern 5: cover\s*of\s*(?:rs\.?|₹)?\s*(…). -/
def siPattern5 (s : List Char) : Option (List Char × List Char) :=
  (litP "cover" s).bind fun t =>
    (litP "of" (dropSpaces t)).bind fun t2 =>
      capAmountGroup (afterCurrency (dropSpaces t2))

/-- Post-processing of a sum-insured match (src/main.py lines 615-629):
strip commas from the captured group; if one of the unit suffixes occurs in
the ten characters after the match end, scale by its multiplier and render
with str(float(…) · mult), else return the captured text itself. -/
def siProcess (m : List Char × List Char) : String :=
  let amount := removeCommas m.1
  match findSuffix (m.2.take 10) with
  | some w => pyFloatStr (parseDecQ amount * suffixMultiplier w)
  | none => String.mk amount

/-- PolicyAnalyzer.extract_sum_insured (src/main.py lines 600-631): the five
patterns tried in order over the lowercased text; the first match is
post-processed; if none matches the literal "Not specified" is returned. -/
def extract_sum_insured (text : List Char) : String :=
  let tl := lowerL text
  match searchO siPattern1 tl with
  | some m => siProcess m
  | none =>
    match searchO siPattern2 tl with
    | some m => siProcess m
    | none =>
      match searchO siPattern3 tl with
      | some m => siProcess m
      | none =>
        match searchO siPattern4 tl with
        | some m => siProcess m
        | none =>
          match searchO siPattern5 tl with
          | some m => siProcess m
          | none => "Not specified"

/-- A fractional part of zero prints as the single digit 0. -/
theorem pyFracDigits_zero (fuel : ℕ) : pyFracDigits (fuel + 1) 0 = ['0'] := by
  simp only [pyFracDigits]
  norm_num
  decide

/-- pyFloatStr renders an integral value n as "n.0". -/
theorem pyFloatStr_natCast (n : ℕ) :
    pyFloatStr (n : ℚ) = toString n ++ "." ++ "0" := by
  have h0 : ¬((n : ℚ) < 0) := not_lt.2 (by positivity)
  have habs : |(n : ℚ)| = (n : ℚ) := abs_of_nonneg (by positivity)
  simp only [pyFloatStr, if_neg h0, habs, Int.floor_natCast]
  have hfr : (n : ℚ) - ((n : ℤ) : ℚ) = 0 := by push_cast; ring
  rw [hfr]
  have hdig : pyFracDigits 17 0 = ['0'] := pyFracDigits_zero 16
  rw [hdig]
  simp [Int.toNat_natCast]

/-- C6 (counterexample to the claim as stated): on the spec's own example
input "sum insured of Rs. 5 lakh" the extractor returns "Not specified",
not "500000.0" — no sum-insured pattern admits the word "of" between the
keyword and the amount. -/
theorem extract_sum_insured_of_lakh :
    extract_sum_insured "sum insured of Rs. 5 lakh".toList = "Not specified" ∧
    extract_sum_insured "sum insured of Rs. 5 lakh".toList ≠ "500000.0" := by
  decide

/-- C6 (amended): the lakh-scaling path (raw number × 100000, rendered as a
float string, the suffix being found within the 10 characters after the
match end) is exhibited on "cover of Rs. 5 lakh", which pattern 5 matches:
the extractor returns "500000.0". -/
theorem extract_sum_insured_cover_of_lakh :
    extract_sum_insured "cover of Rs. 5 lakh".toList = "500000.0" := by
  have h1 : searchO siPattern1 (lowerL "cover of Rs. 5 lakh".toList) = none := by
    decide
  have h2 : searchO siPattern2 (lowerL "cover of Rs. 5 lakh".toList) = none := by
    decide
  have h3 : searchO siPattern3 (lowerL "cover of Rs. 5 lakh".toList) = none := by
    decide
  have h4 : searchO siPattern4 (lowerL "cover of Rs. 5 lakh".toList) = none := by
    decide
  have h5 : searchO siPattern5 (lowerL "cover of Rs. 5 lakh".toList) =
      some (['5'], [' ', 'l', 'a', 'k', 'h']) := by decide
  simp only [extract_sum_insured, h1, h2, h3, h4, h5]
  have hsuf : findSuffix (([' ', 'l', 'a', 'k', 'h'] : List Char).take 10)
      = some "lakh" := by decide
  have hrc : removeCommas ['5'] = ['5'] := by decide
  simp only [siProcess, hsuf, hrc]
  have hparse : parseDecQ ['5'] = 5 := by
    have h55 : parseDecQ ['5'] = ((digitsToNat ['5'] : ℕ) : ℚ) := rfl
    have hd5 : digitsToNat ['5'] = 5 := by decide
    rw [h55, hd5]
    norm_num
  have hmult : suffixMultiplier "lakh" = 100000 := by
    rw [suffixMultiplier, if_pos]
    decide
  rw [hparse, hmult]
  have : (5 : ℚ) * 100000 = ((500000 : ℕ) : ℚ) := by norm_num
  rw [this, pyFloatStr_natCast]
  decide

/-- The regex \s+ followed by a literal: at least one whitespace character,
then w (maximal munch; whitespace and the letters of w are disjoint). -/
def spacesThenLit (w : String) (s : List Char) : Option (List Char) :=
  match s with
  | c :: rest =>
    if isSpacePy c then litP w (rest.dropWhile isSpacePy) else none
  | [] => none

/-- The optional class [-\s]? followed by a literal, with the regex's
greedy-then-backtrack semantics for the ? quantifier. -/
def optDashSpaceLit (w : String) (s : List Char) : Option (List Char) :=
  match s with
  | c :: rest =>
    if isDashSpace c then (litP w rest).orElse fun _ => litP w s
    else litP w s
  | [] => litP w s

/-- Term pattern waiting[-\s]?period|waiting\s+time|pre[-\s]?existing\s+waiting
anchored at a position. -/
def termWaitingAt (s : List Char) : Bool :=
  ((litP "waiting" s).bind (optDashSpaceLit "period")).isSome ||
  ((litP "waiting" s).bind (spacesThenLit "time")).isSome ||
  (((litP "pre" s).bind (optDashSpaceLit "existing")).bind
    (spacesThenLit "waiting")).isSome

/-- Term pattern exclusion|not\s+cover|will\s+not\s+cover|excluded|not\s+payable. -/
def termExclusionAt (s : List Char) : Bool :=
  (litP "exclusion" s).isSome ||
  ((litP "not" s).bind (spacesThenLit "cover")).isSome ||
  (((litP "will" s).bind (spacesThenLit "not")).bind (spacesThenLit "cover")).isSome ||
  (litP "excluded" s).isSome ||
  ((litP "not" s).bind (spacesThenLit "payable")).isSome

/-- Term pattern co[-\s]?pay|copayment|co-payment|coinsurance. -/
def termCoPayAt (s : List Char) : Bool :=
  ((litP "co" s).bind (optDashSpaceLit "pay")).isSome ||
  (litP "copayment" s).isSome ||
  (litP "co-payment" s).isSome ||
  (litP "coinsurance" s).isSome

/-- Term pattern sub[-\s]?limit|sublimit|limit\s+of\s+coverage|cap\s+of. -/
def termSubLimitAt (s : List Char) : Bool :=
  ((litP "sub" s).bind (optDashSpaceLit "limit")).isSome ||
  (litP "sublimit" s).isSome ||
  (((litP "limit" s).bind (spacesThenLit "of")).bind (spacesThenLit "coverage")).isSome ||
  ((litP "cap" s).bind (spacesThenLit "of")).isSome

/-- Term pattern room\s+rent|room\s+charges|accommodation\s+benefit. -/
def termRoomRentAt (s : List Char) : Bool :=
  ((litP "room" s).bind (spacesThenLit "rent")).isSome ||
  ((litP "room" s).bind (spacesThenLit "charges")).isSome ||
  ((litP "accommodation" s).bind (spacesThenLit "benefit")).isSome

/-- Term pattern pre[-\s]?existing|preexisting|known\s+condition. -/
def termPreExistingAt (s : List Char) : Bool :=
  ((litP "pre" s).bind (optDashSpaceLit "existing")).isSome ||
  (litP "preexisting" s).isSome ||
  ((litP "known" s).bind (spacesThenLit "condition")).isSome

/-- Term pattern claim\s+process|claim\s+filing|intimation|claim\s+settlement. -/
def termClaimAt (s : List Char) : Bool :=
  ((litP "claim" s).bind (spacesThenLit "process")).isSome ||
  ((litP "claim" s).bind (spacesThenLit "filing")).isSome ||
  (litP "intimation" s).isSome ||
  ((litP "claim" s).bind (spacesThenLit "settlement")).isSome

/-- Term pattern deductible|excess|first\s+pay. -/
def termDeductibleAt (s : List Char) : Bool :=
  (litP "deductible" s).isSome ||
  (litP "excess" s).isSome ||
  ((litP "first" s).bind (spacesThenLit "pay")).isSome

/-- re.search as a Boolean: does the anchored matcher fire at any position. -/
def anyPosition (m : List Char → Bool) : List Char → Bool
  | [] => m []
  | c :: rest => m (c :: rest) || anyPosition m rest

/-- Python text.split('.') — the pieces between periods, empty pieces kept. -/
def splitDot : List Char → List (List Char)
  | [] => [[]]
  | c :: rest =>
    match splitDot rest with
    | [] => [[c]]
    | h :: t => if c = '.' then [] :: h :: t else (c :: h) :: t

/-- Python str.strip(): drop leading and trailing whitespace. -/
def stripL (s : List Char) : List Char :=
  ((s.dropWhile isSpacePy).reverse.dropWhile isSpacePy).reverse

/-- The eight fixed clause terms of extract_key_clauses with their patterns
(src/main.py lines 739-748), in source order. -/
def clauseTerms : List (String × (List Char → Bool)) :=
  [("waiting period", termWaitingAt),
   ("exclusion", termExclusionAt),
   ("co-pay", termCoPayAt),
   ("sub-limit", termSubLimitAt),
   ("room rent", termRoomRentAt),
   ("pre-existing", termPreExistingAt),
   ("claim", termClaimAt),
   ("deductible", termDeductibleAt)]

/-- The clause text for one term: the first sentence (split on periods)
whose lowercasing matches the term pattern, stripped with a period appended;
the literal sentinel when no sentence matches. -/
def clauseValue (text : List Char) (p : List Char → Bool) : String :=
  match (splitDot text).filter (fun s => anyPosition p (lowerL s)) with
  | [] => "Not mentioned in document"
  | s :: _ => String.mk (stripL s ++ ['.'])

/-- PolicyAnalyzer.extract_key_clauses (src/main.py lines 733-757): the
mapping from each of the eight clause terms to its clause text. -/
def extract_key_clauses (text : List Char) : List (String × String) :=
  clauseTerms.map fun tp => (tp.1, clauseValue text tp.2)

/-- C7: for every text and every one of the 8 fixed clause terms, if no
sentence of the text matches that term's pattern, the mapping binds the term
to the literal "Not mentioned in document"; on a text containing none of
the terms, all 8 entries are that sentinel. -/
theorem extract_key_clauses_sentinel :
    (∀ (text : List Char) (t : String) (p : List Char → Bool),
      (t, p) ∈ clauseTerms →
      (splitDot text).filter (fun s => anyPosition p (lowerL s)) = [] →
      (extract_key_clauses text).lookup t = some "Not mentioned in document") ∧
    extract_key_clauses "hello world".toList =
      [("waiting period", "Not mentioned in document"),
       ("exclusion", "Not mentioned in document"),
       ("co-pay", "Not mentioned in document"),
       ("sub-limit", "Not mentioned in document"),
       ("room rent", "Not mentioned in document"),
       ("pre-existing", "Not mentioned in document"),
       ("claim", "Not mentioned in document"),
       ("deductible", "Not mentioned in document")] := by
  constructor
  · intro text t p hmem hfilter
    simp only [clauseTerms, List.mem_cons, List.not_mem_nil, or_false,
      Prod.mk.injEq] at hmem
    rcases hmem with h | h | h | h | h | h | h | h <;>
      obtain ⟨rfl, rfl⟩ := h <;>
      simp [extract_key_clauses, clauseTerms, clauseValue, List.lookup, hfilter]
  · decide

/-- Witness for extract_key_clauses_sentinel: the term "co-pay" on a text
with no co-pay sentence. -/
theorem extract_key_clauses_sentinel_witness :
    (extract_key_clauses "hello world".toList).lookup "co-pay"
      = some "Not mentioned in document" :=
  extract_key_clauses_sentinel.1 "hello world".toList "co-pay" termCoPayAt
    (by simp [clauseTerms]) (by decide)

/-- re.sub(r'\s+', ' ', s): collapse every whitespace run to a single space.
The flag records whether the previous character was part of a run. -/
def collapseWsAux : Bool → List Char → List Char
  | _, [] => []
  | prevSpace, c :: rest =>
    if isSpacePy c then
      if prevSpace then collapseWsAux true rest
      else ' ' :: collapseWsAux true rest
    else c :: collapseWsAux false rest

/-- re.sub(r'\s+', ' ', s). -/
def collapseWs (s : List Char) : List Char :=
  collapseWsAux false s

/-- Python str.capitalize(): first character upper-cased, the rest
lower-cased. -/
def pyCapitalize : List Char → List Char
  | [] => []
  | c :: rest => Char.toUpper c :: rest.map Char.toLower

/-- Worker for dict.fromkeys-style deduplication keeping first occurrences. -/
def dedupGo {α : Type} [DecidableEq α] (seen : List α) : List α → List α
  | [] => []
  | a :: rest =>
    if a ∈ seen then dedupGo seen rest else a :: dedupGo (a :: seen) rest

/-- list(dict.fromkeys(l)): deduplicate keeping the first occurrence of each
element, preserving order. -/
def dedupKeepFirst {α : Type} [DecidableEq α] (l : List α) : List α :=
  dedupGo [] l

/-- The deduplicated list is a sublist of the original. -/
theorem dedupGo_sublist {α : Type} [DecidableEq α] (l : List α) :
    ∀ seen : List α, List.Sublist (dedupGo seen l) l := by
  induction l with
  | nil => intro seen; simp [dedupGo]
  | cons a rest ih =>
    intro seen
    simp only [dedupGo]
    split_ifs
    · exact (ih seen).cons a
    · exact (ih (a :: seen)).cons₂ a

/-- Elements surviving deduplication were not in the seen accumulator. -/
theorem mem_dedupGo_not_seen {α : Type} [DecidableEq α] {x : α} (l : List α) :
    ∀ seen : List α, x ∈ dedupGo seen l → x ∉ seen := by
  induction l with
  | nil => intro seen h; simp [dedupGo] at h
  | cons a rest ih =>
    intro seen h
    simp only [dedupGo] at h
    split_ifs at h with ha
    · exact ih seen h
    · rcases List.mem_cons.mp h with rfl | h2
      · exact ha
      · intro hx
        exact ih (a :: seen) h2 (List.mem_cons_of_mem a hx)

/-- The deduplicated list has no duplicates. -/
theorem dedupGo_nodup {α : Type} [DecidableEq α] (l : List α) :
    ∀ seen : List α, (dedupGo seen l).Nodup := by
  induction l with
  | nil => intro seen; simp [dedupGo]
  | cons a rest ih =>
    intro seen
    simp only [dedupGo]
    split_ifs with ha
    · exact ih seen
    · refine List.nodup_cons.mpr ⟨fun hmem => ?_, ih (a :: seen)⟩
      exact mem_dedupGo_not_seen rest (a :: seen) hmem (List.mem_cons_self a seen)

/-- Tail [^.]*\. of every exclusion pattern: everything up to and including
the next period; fails when no period follows.  Returns the full matched
span (from the position start) and the rest after the period. -/
def exclTail (s0 rAfterAlt : List Char) : Option (List Char × List Char) :=
  match rAfterAlt.dropWhile (fun c => c ≠ '.') with
  | '.' :: rest => some (s0.take (s0.length - rest.length), rest)
  | _ => none

/-- Head alternation not\s+cover(?:ed)?|exclusion|excluded of exclusion
pattern 1.  The optional (?:ed)? is consumed greedily; either choice leads
into [^.]* and yields the same match span, so no backtracking is needed. -/
def exclHead1 (s : List Char) : Option (List Char) :=
  (((litP "not" s).bind (spacesThenLit "cover")).map fun t =>
    if "ed".toList.isPrefixOf t then t.drop 2 else t).orElse fun _ =>
  (litP "exclusion" s).orElse fun _ => litP "excluded" s

/-- Head alternation will\s+not\s+pay|not\s+liable of exclusion pattern 2. -/
def exclHead2 (s : List Char) : Option (List Char) :=
  (((litP "will" s).bind (spacesThenLit "not")).bind
    (spacesThenLit "pay")).orElse fun _ =>
  (litP "not" s).bind (spacesThenLit "liable")

/-- Head alternation does\s+not\s+apply|not\s+included of exclusion
pattern 3. -/
def exclHead3 (s : List Char) : Option (List Char) :=
  (((litP "does" s).bind (spacesThenLit "not")).bind
    (spacesThenLit "apply")).orElse fun _ =>
  (litP "not" s).bind (spacesThenLit "included")

/-- Head alternation limitations?|restrictions? of exclusion pattern 4.
The optional trailing s is absorbed by the following [^.]* and does not
change the match span. -/
def exclHead4 (s : List Char) : Option (List Char) :=
  (litP "limitation" s).orElse fun _ => litP "restriction" s

/-- Head waiting\s+period of exclusion pattern 5. -/
def exclHead5 (s : List Char) : Option (List Char) :=
  (litP "waiting" s).bind (spacesThenLit "period")

/-- Head pre-existing\s+condition of exclusion pattern 6 (literal hyphen). -/
def exclHead6 (s : List Char) : Option (List Char) :=
  (litP "pre-existing" s).bind (spacesThenLit "condition")

/-- The six exclusion patterns (?:head)[^.]*\. of extract_exclusions
(src/main.py lines 713-720), in source order. -/
def exclMatchers : List (List Char → Option (List Char × List Char)) :=
  [fun s => (exclHead1 s).bind (exclTail s),
   fun s => (exclHead2 s).bind (exclTail s),
   fun s => (exclHead3 s).bind (exclTail s),
   fun s => (exclHead4 s).bind (exclTail s),
   fun s => (exclHead5 s).bind (exclTail s),
   fun s => (exclHead6 s).bind (exclTail s)]

/-- The accumulation loop of extract_exclusions (src/main.py lines 722-729):
for every pattern in order, for every match, strip and collapse whitespace;
keep it if longer than 15 characters and not already present (the membership
test compares the uncapitalized candidate against the capitalized entries,
as the source does), appending its capitalization. -/
def exclRaw (text : List Char) : List (List Char) :=
  let tl := lowerL text
  ((exclMatchers.map fun m => findAll m tl).flatten).foldl
    (fun acc mtch =>
      let cm := collapseWs (stripL mtch)
      if 15 < cm.length ∧ cm ∉ acc then acc ++ [pyCapitalize cm] else acc)
    []

/-- PolicyAnalyzer.extract_exclusions (src/main.py lines 707-731): the
accumulated candidates, deduplicated keeping first occurrences
(list(dict.fromkeys(...))), capped at 8. -/
def extract_exclusions (text : List Char) : List (List Char) :=
  (dedupKeepFirst (exclRaw text)).take 8

/-- C8: for every input text the exclusion list has length at most 8,
contains no two equal normalized strings, and preserves first-seen order
(it is a sublist of the accumulated candidate list). -/
theorem extract_exclusions_bounded (text : List Char) :
    (extract_exclusions text).length ≤ 8 ∧
    (extract_exclusions text).Nodup ∧
    List.Sublist (extract_exclusions text) (exclRaw text) := by
  refine ⟨?_, ?_, ?_⟩
  · simpa [extract_exclusions] using
      (List.length_take 8 (dedupKeepFirst (exclRaw text))) ▸
        min_le_left 8 (dedupKeepFirst (exclRaw text)).length
  · exact ((List.take_sublist 8 _).nodup) (dedupGo_nodup (exclRaw text) [])
  · exact (List.take_sublist 8 _).trans (dedupGo_sublist (exclRaw text) [])

/-- One entry of the POLICY_TYPES table (src/main.py lines 513-562). -/
structure PolicyTypeInfo where
  name : String
  keywords : List String
  weight : ℚ
  color : String
  icon : String

/-- The "Health Insurance" entry of POLICY_TYPES. -/
def healthInfo : PolicyTypeInfo :=
  { name := "Health Insurance"
    keywords := ["health", "medical", "hospital", "surgery", "disease",
      "treatment", "doctor", "medicine", "clinical", "diagnosis", "patient",
      "healthcare", "policy", "insurance", "cover", "benefits", "cashless",
      "reimbursement", "room rent", "icu", "pre-existing", "waiting period",
      "copay", "day care", "hospitalization"]
    weight := 1.5
    color := "#FF6B6B"
    icon := "🏥" }

/-- The "Car Insurance" entry of POLICY_TYPES. -/
def carInfo : PolicyTypeInfo :=
  { name := "Car Insurance"
    keywords := ["car", "vehicle", "motor", "automobile", "accident", "drive",
      "driver", "collision", "repair", "garage", "road", "traffic",
      "third party", "comprehensive", "own damage", "theft", "liability",
      "no claim bonus", "depreciation", "towing", "tire", "engine"]
    weight := 1.5
    color := "#4ECDC4"
    icon := "🚗" }

/-- The "Life Insurance" entry of POLICY_TYPES. -/
def lifeInfo : PolicyTypeInfo :=
  { name := "Life Insurance"
    keywords := ["life", "death", "term", "maturity", "nominee", "beneficiary",
      "assured", "policyholder", "premium", "sum assured", "survival",
      "mortality", "endowment", "whole life", "riders", "critical illness",
      "accidental death", "disability", "income benefit"]
    weight := 1.5
    color := "#45B7D1"
    icon := "💚" }

/-- The "Travel Insurance" entry of POLICY_TYPES. -/
def travelInfo : PolicyTypeInfo :=
  { name := "Travel Insurance"
    keywords := ["travel", "trip", "flight", "baggage", "overseas", "foreign",
      "passport", "journey", "tour", "abroad", "holiday", "vacation",
      "airline", "trip cancellation", "delay", "lost luggage",
      "emergency evacuation", "travel assistance"]
    weight := 1.5
    color := "#96CEB4"
    icon := "✈️" }

/-- The "Home Insurance" entry of POLICY_TYPES. -/
def homeInfo : PolicyTypeInfo :=
  { name := "Home Insurance"
    keywords := ["home", "house", "property", "building", "contents", "fire",
      "theft", "flood", "earthquake", "residence", "household", "structure",
      "burglary", "natural disaster", "personal belongings", "liability",
      "renovation"]
    weight := 1.5
    color := "#FFE194"
    icon := "🏠" }

/-- The "Bike Insurance" entry of POLICY_TYPES. -/
def bikeInfo : PolicyTypeInfo :=
  { name := "Bike Insurance"
    keywords := ["bike", "motorcycle", "two wheeler", "scooter", "helmet",
      "rider", "biking", "motorcycling", "two-wheeler", "accessories",
      "pillion", "comprehensive"]
    weight := 1.5
    color := "#D4A5A5"
    icon := "🏍️" }

/-- PolicyAnalyzer.POLICY_TYPES, in the source's (dict-insertion) order. -/
def POLICY_TYPES : List PolicyTypeInfo :=
  [healthInfo, carInfo, lifeInfo, travelInfo, homeInfo, bikeInfo]

/-- One category's score and matched keywords after scoring.  The source
keeps the matched keywords in a side dict keyed by type name; since type
names are distinct dict keys, carrying them in the tuple is equivalent. -/
structure ScoredType where
  name : String
  score : ℚ
  matched : List String

/-- Does the keyword occur in the lowercased text (count > 0). -/
def kwHit (tl : List Char) (kw : String) : Bool :=
  0 < pyCount kw.toList tl

/-- One step of extract_policy_type's scoring loop
(src/main.py lines 572-579): count the keyword; if it occurs, add
count × weight to the score and append the keyword. -/
def scoreStep (tl : List Char) (w : ℚ) (acc : ℚ × List String)
    (kw : String) : ℚ × List String :=
  if kwHit tl kw then (acc.1 + (pyCount kw.toList tl : ℚ) * w, acc.2 ++ [kw])
  else acc

/-- Score one POLICY_TYPES entry over the lowercased text. -/
def scoreEntry (tl : List Char) (info : PolicyTypeInfo) : ScoredType :=
  let r := info.keywords.foldl (scoreStep tl info.weight) (0, [])
  ⟨info.name, r.1, r.2⟩

/-- Stable descending insertion: x goes before the first element it ties or
beats, which reproduces Python's stable sorted(..., reverse=True). -/
def insertScoredDesc (x : ScoredType) : List ScoredType → List ScoredType
  | [] => [x]
  | y :: rest =>
    if y.score ≤ x.score then x :: y :: rest else y :: insertScoredDesc x rest

/-- Stable descending sort by score (Python's sorted with reverse=True). -/
def sortScoredDesc : List ScoredType → List ScoredType
  | [] => []
  | x :: rest => insertScoredDesc x (sortScoredDesc rest)

/-- sum(scores.values()) or 1 — the confidence denominator
(src/main.py line 585). -/
def totalScoreOr1 (tl : List Char) : ℚ :=
  let t := (POLICY_TYPES.map fun info => (scoreEntry tl info).score).sum
  if t = 0 then 1 else t

/-- One candidate of the classifier's result list
(src/main.py lines 591-596). -/
structure PolicyTypeCandidate where
  type : String
  confidence : ℚ
  score : ℚ
  matched_keywords : List String

/-- PolicyAnalyzer.extract_policy_type (src/main.py lines 564-598): score
every category, sort descending by score (stably), keep the candidates with
confidence above 5%, annotate each with its rounded confidence and its
first five matched keywords. -/
def extract_policy_type (text : List Char) : List PolicyTypeCandidate :=
  let tl := lowerL text
  let sorted := sortScoredDesc (POLICY_TYPES.map (scoreEntry tl))
  let t := totalScoreOr1 tl
  (sorted.filter fun e => 5 < e.score / t * 100).map fun e =>
    { type := e.name
      confidence := pyRound1 (e.score / t * 100)
      score := e.score
      matched_keywords := e.matched.take 5 }

/-- Membership is preserved by the descending insertion. -/
theorem mem_insertScoredDesc {x y : ScoredType} {l : List ScoredType} :
    x ∈ insertScoredDesc y l ↔ x = y ∨ x ∈ l := by
  induction l with
  | nil => simp [insertScoredDesc]
  | cons z rest ih =>
    simp only [insertScoredDesc]
    split_ifs
    · simp
    · rw [List.mem_cons, ih, List.mem_cons]
      tauto

/-- The descending insertion preserves the descending pairwise order. -/
theorem pairwise_insertScoredDesc (x : ScoredType) {l : List ScoredType}
    (h : l.Pairwise fun a b => b.score ≤ a.score) :
    (insertScoredDesc x l).Pairwise fun a b => b.score ≤ a.score := by
  induction l with
  | nil => simp [insertScoredDesc]
  | cons y rest ih =>
    rcases List.pairwise_cons.mp h with ⟨hy, hrest⟩
    simp only [insertScoredDesc]
    split_ifs with hle
    · refine List.pairwise_cons.mpr ⟨?_, h⟩
      intro z hz
      rcases List.mem_cons.mp hz with rfl | hz2
      · exact hle
      · exact le_trans (hy z hz2) hle
    · refine List.pairwise_cons.mpr ⟨?_, ih hrest⟩
      intro z hz
      rcases mem_insertScoredDesc.mp hz with rfl | hz2
      · exact le_of_lt (lt_of_not_le hle)
      · exact hy z hz2

/-- The sort's output is descending in score. -/
theorem sortScoredDesc_pairwise (l : List ScoredType) :
    (sortScoredDesc l).Pairwise fun a b => b.score ≤ a.score := by
  induction l with
  | nil => simp [sortScoredDesc]
  | cons x rest ih => exact pairwise_insertScoredDesc x ih

/-- The sort preserves membership. -/
theorem mem_sortScoredDesc {x : ScoredType} {l : List ScoredType} :
    x ∈ sortScoredDesc l ↔ x ∈ l := by
  induction l with
  | nil => simp [sortScoredDesc]
  | cons y rest ih =>
    simp only [sortScoredDesc, mem_insertScoredDesc, List.mem_cons, ih]

/-- The scoring fold in closed form: the final score adds, over the
keywords that occur, count × weight; the matched list appends the occurring
keywords in keyword-list order. -/
theorem scoreFold_eq (tl : List Char) (w : ℚ) (kws : List String) :
    ∀ (q : ℚ) (acc : List String),
      kws.foldl (scoreStep tl w) (q, acc) =
        (q + ((kws.filter (kwHit tl)).map
            fun kw => (pyCount kw.toList tl : ℚ) * w).sum,
          acc ++ kws.filter (kwHit tl)) := by
  induction kws with
  | nil => intro q acc; simp
  | cons kw rest ih =>
    intro q acc
    by_cases h : kwHit tl kw
    · simp only [List.foldl_cons, scoreStep, h, if_true, ih, List.filter_cons,
        List.map_cons, List.sum_cons, Prod.mk.injEq]
      constructor
      · ring
      · simp
    · simp only [List.foldl_cons, scoreStep, h, if_false, ih, List.filter_cons,
        Bool.false_eq_true]

/-- scoreEntry in closed form. -/
theorem scoreEntry_eq (tl : List Char) (info : PolicyTypeInfo) :
    scoreEntry tl info =
      ⟨info.name,
        ((info.keywords.filter (kwHit tl)).map
          fun kw => (pyCount kw.toList tl : ℚ) * info.weight).sum,
        info.keywords.filter (kwHit tl)⟩ := by
  simp [scoreEntry, scoreFold_eq]

/-- C9: extract_policy_type returns candidates sorted descending by raw
score, filtered to confidence > 5%, each annotated with the rounded
confidence and at most 5 matched keywords taken in keyword-list order; and
on a text containing only Car-Insurance keywords it returns the single
candidate "Car Insurance" with confidence 100.0. -/
theorem extract_policy_type_spec :
    (∀ text : List Char,
      (extract_policy_type text).Pairwise (fun a b => b.score ≤ a.score) ∧
      ∀ r ∈ extract_policy_type text,
        5 < r.score / totalScoreOr1 (lowerL text) * 100 ∧
        r.confidence = pyRound1 (r.score / totalScoreOr1 (lowerL text) * 100) ∧
        r.matched_keywords.length ≤ 5 ∧
        ∃ info ∈ POLICY_TYPES, r.type = info.name ∧
          r.matched_keywords =
            (info.keywords.filter (kwHit (lowerL text))).take 5) ∧
    extract_policy_type "towing garage engine".toList =
      [{ type := "Car Insurance", confidence := 100, score := 9 / 2,
         matched_keywords := ["garage", "towing", "engine"] }] := by
  constructor
  · intro text
    constructor
    · simp only [extract_policy_type]
      have hpw : (sortScoredDesc (POLICY_TYPES.map
          (scoreEntry (lowerL text)))).Pairwise
          (fun a b : ScoredType => b.score ≤ a.score) :=
        sortScoredDesc_pairwise _
      have hpf : ((sortScoredDesc (POLICY_TYPES.map
          (scoreEntry (lowerL text)))).filter
          (fun e => 5 < e.score / totalScoreOr1 (lowerL text) * 100)).Pairwise
          (fun a b : ScoredType => b.score ≤ a.score) :=
        List.Pairwise.sublist (List.filter_sublist _) hpw
      exact List.pairwise_map.mpr (hpf.imp fun hab => hab)
    · intro r hr
      simp only [extract_policy_type] at hr
      rcases List.mem_map.mp hr with ⟨e, he, rfl⟩
      rcases List.mem_filter.mp he with ⟨hesort, hecond⟩
      rcases List.mem_map.mp (mem_sortScoredDesc.mp hesort) with ⟨info, hinfo, rfl⟩
      refine ⟨of_decide_eq_true hecond, rfl, ?_, info, hinfo, rfl, ?_⟩
      · rw [List.length_take]
        exact min_le_left _ _
      · show (scoreEntry (lowerL text) info).matched.take 5 = _
        rw [scoreEntry_eq]
  · have hlow : lowerL "towing garage engine".toList
        = "towing garage engine".toList := by decide
    have hfH : healthInfo.keywords.filter (kwHit "towing garage engine".toList)
        = [] := by decide
    have hH : scoreEntry "towing garage engine".toList healthInfo
        = ⟨"Health Insurance", 0, []⟩ := by
      rw [scoreEntry_eq, hfH]; simp [healthInfo]
    have hfC : carInfo.keywords.filter (kwHit "towing garage engine".toList)
        = ["garage", "towing", "engine"] := by decide
    have hg : pyCount "garage".toList "towing garage engine".toList = 1 := by
      decide
    have htw : pyCount "towing".toList "towing garage engine".toList = 1 := by
      decide
    have hen : pyCount "engine".toList "towing garage engine".toList = 1 := by
      decide
    have hC : scoreEntry "towing garage engine".toList carInfo
        = ⟨"Car Insurance", 9 / 2, ["garage", "towing", "engine"]⟩ := by
      rw [scoreEntry_eq, hfC]
      simp only [List.map_cons, List.map_nil, List.sum_cons, List.sum_nil,
        hg, htw, hen]
      norm_num [carInfo]
    have hfL : lifeInfo.keywords.filter (kwHit "towing garage engine".toList)
        = [] := by decide
    have hL : scoreEntry "towing garage engine".toList lifeInfo
        = ⟨"Life Insurance", 0, []⟩ := by
      rw [scoreEntry_eq, hfL]; simp [lifeInfo]
    have hfT : travelInfo.keywords.filter (kwHit "towing garage engine".toList)
        = [] := by decide
    have hT : scoreEntry "towing garage engine".toList travelInfo
        = ⟨"Travel Insurance", 0, []⟩ := by
      rw [scoreEntry_eq, hfT]; simp [travelInfo]
    have hfHo : homeInfo.keywords.filter (kwHit "towing garage engine".toList)
        = [] := by decide
    have hHo : scoreEntry "towing garage engine".toList homeInfo
        = ⟨"Home Insurance", 0, []⟩ := by
      rw [scoreEntry_eq, hfHo]; simp [homeInfo]
    have hfB : bikeInfo.keywords.filter (kwHit "towing garage engine".toList)
        = [] := by decide
    have hB : scoreEntry "towing garage engine".toList bikeInfo
        = ⟨"Bike Insurance", 0, []⟩ := by
      rw [scoreEntry_eq, hfB]; simp [bikeInfo]
    have hmap : POLICY_TYPES.map (scoreEntry "towing garage engine".toList)
        = [⟨"Health Insurance", 0, []⟩,
           ⟨"Car Insurance", 9 / 2, ["garage", "towing", "engine"]⟩,
           ⟨"Life Insurance", 0, []⟩, ⟨"Travel Insurance", 0, []⟩,
           ⟨"Home Insurance", 0, []⟩, ⟨"Bike Insurance", 0, []⟩] := by
      simp only [POLICY_TYPES, List.map_cons, List.map_nil]
      rw [hH, hC, hL, hT, hHo, hB]
    have hsort : sortScoredDesc
        [⟨"Health Insurance", 0, []⟩,
         ⟨"Car Insurance", 9 / 2, ["garage", "towing", "engine"]⟩,
         ⟨"Life Insurance", 0, []⟩, ⟨"Travel Insurance", 0, []⟩,
         ⟨"Home Insurance", 0, []⟩, ⟨"Bike Insurance", 0, []⟩]
        = [⟨"Car Insurance", 9 / 2, ["garage", "towing", "engine"]⟩,
           ⟨"Health Insurance", 0, []⟩, ⟨"Life Insurance", 0, []⟩,
           ⟨"Travel Insurance", 0, []⟩, ⟨"Home Insurance", 0, []⟩,
           ⟨"Bike Insurance", 0, []⟩] := by
      norm_num [sortScoredDesc, insertScoredDesc]
    have htot : totalScoreOr1 "towing garage engine".toList = 9 / 2 := by
      simp only [totalScoreOr1, POLICY_TYPES, List.map_cons, List.map_nil,
        hH, hC, hL, hT, hHo, hB]
      norm_num
    simp only [extract_policy_type, hlow, hmap, hsort, htot]
    norm_num [pyRound1, pyRoundInt]

/-- Witness for extract_policy_type_spec: the Car-Insurance candidate of the
concrete run satisfies the confidence filter and the keyword cap. -/
theorem extract_policy_type_spec_witness :
    5 < ((⟨"Car Insurance", 100, 9 / 2, ["garage", "towing", "engine"]⟩ :
          PolicyTypeCandidate)).score
        / totalScoreOr1 (lowerL "towing garage engine".toList) * 100 ∧
    ((⟨"Car Insurance", 100, 9 / 2, ["garage", "towing", "engine"]⟩ :
      PolicyTypeCandidate)).matched_keywords.length ≤ 5 := by
  have h := extract_policy_type_spec
  have hmem : (⟨"Car Insurance", 100, 9 / 2, ["garage", "towing", "engine"]⟩ :
      PolicyTypeCandidate) ∈ extract_policy_type "towing garage engine".toList := by
    rw [h.2]
    exact List.mem_singleton_self _
  obtain ⟨h1, _, h3, _⟩ := (h.1 "towing garage engine".toList).2 _ hmem
  exact ⟨h1, h3⟩
